import Mathlib

/-!
Verification development for the GAMER Streamlit front-end (`src/app.py`).

The file shallowly embeds the turn-orchestration and streaming-render core
of the application: the Turn Executor (`answer_generation`), the Typewriter
Renderer (`typewriter_stream`), the Render Sequencer (the two consumption
loops of `main`), session-state initialization
(`initialize_session_state`), the post-stream finalization block of `main`,
and the Feedback Binder (the feedback section of `main`).

Python dynamic values are modelled by the inductive type `Py`; Python
exceptions are modelled with `Except String`, the error string recording
the exception's type name (`"TypeError"`, `"KeyError"`, `"IndexError"`,
`"JSONDecodeError"`).  `json.loads` is modelled by an executable
recursive-descent JSON reader (`json_loads`) over the JSON fragment the
application exchanges (null, booleans, integers, strings, arrays,
objects), which is exactly the shape of the payloads in the theorems
below.
-/

namespace GAMER

/-- Model of a Python runtime value, covering the shapes `app.py`
manipulates: `None`, booleans, integers, strings, lists and
string-keyed dicts (JSON objects preserve insertion order, as Python
dicts do). -/
inductive Py where
  | none
  | bool (b : Bool)
  | int (n : Int)
  | str (s : String)
  | list (xs : List Py)
  | dict (kvs : List (String × Py))

/-- Python `value == some_string` comparison: true only for an equal
string, false for every other runtime value (Python `==` across types). -/
def pyEqStr (p : Py) (s : String) : Bool :=
  match p with
  | Py.str t => t == s
  | _ => false

/-- Python subscripting `p[key]` with a string key, as used by
`result["type"]` / `result["content"]`: a dict looks the key up
(`KeyError` when absent); a string or list subscripted by a string
raises `TypeError`, as do `None`, ints and bools. -/
def getItem (p : Py) (key : String) : Except String Py :=
  match p with
  | Py.dict kvs =>
    match kvs.lookup key with
    | some v => Except.ok v
    | Option.none => Except.error "KeyError"
  | _ => Except.error "TypeError"

/-- Python subscripting `p[0]`, as used by `text_content[0]`: first
character of a string, first element of a list (`IndexError` when
empty); a dict raises `KeyError` (0 is not among its string keys);
`None`, ints and bools raise `TypeError`. -/
def subscriptZero (p : Py) : Except String Py :=
  match p with
  | Py.str s =>
    match s.data with
    | [] => Except.error "IndexError"
    | c :: _ => Except.ok (Py.str (String.mk [c]))
  | Py.list [] => Except.error "IndexError"
  | Py.list (x :: _) => Except.ok x
  | Py.dict _ => Except.error "KeyError"
  | _ => Except.error "TypeError"

/-- JSON whitespace test. -/
def isWsChar (c : Char) : Bool :=
  c = ' ' || c = '\t' || c = '\n' || c = '\r'

/-- Drop leading JSON whitespace. -/
def skipWs : List Char → List Char
  | [] => []
  | c :: cs => if isWsChar c then skipWs cs else c :: cs

/-- Read the body of a JSON string literal (after the opening quote),
handling the single-character escapes; returns the decoded string and
the remaining input, or `none` on a malformed literal. -/
def parseStringBody : List Char → List Char → Option (String × List Char)
  | [], _ => Option.none
  | '\\' :: e :: cs2, acc =>
    let dec : Option Char :=
      if e = '\"' then some '\"'
      else if e = '\\' then some '\\'
      else if e = '/' then some '/'
      else if e = 'n' then some '\n'
      else if e = 't' then some '\t'
      else if e = 'r' then some '\r'
      else if e = 'b' then some (Char.ofNat 8)
      else if e = 'f' then some (Char.ofNat 12)
      else Option.none
    match dec with
    | some d => parseStringBody cs2 (d :: acc)
    | Option.none => Option.none
  | '\\' :: [], _ => Option.none
  | c :: cs, acc =>
    if c = '\"' then some (String.mk acc.reverse, cs)
    else parseStringBody cs (c :: acc)

/-- Accumulate a run of decimal digits. -/
def parseDigitsAux : List Char → Nat → Nat × List Char
  | [], acc => (acc, [])
  | c :: cs, acc =>
    if c.isDigit then parseDigitsAux cs (acc * 10 + (c.toNat - 48))
    else (acc, c :: cs)

/-- Read a nonempty run of decimal digits as a `Nat`. -/
def parseNat : List Char → Option (Nat × List Char)
  | [] => Option.none
  | c :: cs =>
    if c.isDigit then some (parseDigitsAux cs (c.toNat - 48))
    else Option.none

mutual

/-- Fueled recursive-descent reader for one JSON value; models the
grammar `json.loads` accepts on the integer-only payloads this
application exchanges. -/
def parseValue : Nat → List Char → Option (Py × List Char)
  | 0, _ => Option.none
  | f + 1, cs =>
    match skipWs cs with
    | [] => Option.none
    | c :: rest =>
      if c = 'n' then
        match rest with
        | 'u' :: 'l' :: 'l' :: rest2 => some (Py.none, rest2)
        | _ => Option.none
      else if c = 't' then
        match rest with
        | 'r' :: 'u' :: 'e' :: rest2 => some (Py.bool true, rest2)
        | _ => Option.none
      else if c = 'f' then
        match rest with
        | 'a' :: 'l' :: 's' :: 'e' :: rest2 => some (Py.bool false, rest2)
        | _ => Option.none
      else if c = '\"' then
        match parseStringBody rest [] with
        | some (s, rest2) => some (Py.str s, rest2)
        | Option.none => Option.none
      else if c = '[' then
        match skipWs rest with
        | ']' :: rest2 => some (Py.list [], rest2)
        | _ =>
          match parseElems f rest with
          | some (vs, rest2) => some (Py.list vs, rest2)
          | Option.none => Option.none
      else if c = Char.ofNat 123 then
        match skipWs rest with
        | c2 :: rest2 =>
          if c2 = Char.ofNat 125 then some (Py.dict [], rest2)
          else
            match parseMembers f rest with
            | some (kvs, rest3) => some (Py.dict kvs, rest3)
            | Option.none => Option.none
        | [] => Option.none
      else if c = '-' then
        match parseNat rest with
        | some (n, rest2) => some (Py.int (-(n : Int)), rest2)
        | Option.none => Option.none
      else if c.isDigit then
        match parseNat (c :: rest) with
        | some (n, rest2) => some (Py.int (n : Int), rest2)
        | Option.none => Option.none
      else Option.none

/-- Comma-separated JSON array elements, up to the closing bracket. -/
def parseElems : Nat → List Char → Option (List Py × List Char)
  | 0, _ => Option.none
  | f + 1, cs =>
    match parseValue f cs with
    | some (v, rest) =>
      match skipWs rest with
      | ',' :: rest2 =>
        match parseElems f rest2 with
        | some (vs, rest3) => some (v :: vs, rest3)
        | Option.none => Option.none
      | ']' :: rest2 => some ([v], rest2)
      | _ => Option.none
    | Option.none => Option.none

/-- Comma-separated JSON object members, up to the closing brace. -/
def parseMembers : Nat → List Char → Option (List (String × Py) × List Char)
  | 0, _ => Option.none
  | f + 1, cs =>
    match skipWs cs with
    | '\"' :: rest =>
      match parseStringBody rest [] with
      | some (k, rest2) =>
        match skipWs rest2 with
        | ':' :: rest3 =>
          match parseValue f rest3 with
          | some (v, rest4) =>
            match skipWs rest4 with
            | ',' :: rest5 =>
              match parseMembers f rest5 with
              | some (kvs, rest6) => some ((k, v) :: kvs, rest6)
              | Option.none => Option.none
            | c2 :: rest5 =>
              if c2 = Char.ofNat 125 then some ([(k, v)], rest5)
              else Option.none
            | [] => Option.none
          | Option.none => Option.none
        | _ => Option.none
      | Option.none => Option.none
    | _ => Option.none

end

/-- Model of Python `json.loads` on a string: parse one JSON value and
require only whitespace to remain; any failure is the single
`JSONDecodeError` exception. -/
def json_loads (s : String) : Except String Py :=
  match parseValue (s.length + 2) s.data with
  | some (v, rest) =>
    if (skipWs rest).isEmpty then Except.ok v
    else Except.error "JSONDecodeError"
  | Option.none => Except.error "JSONDecodeError"

/-- Model of Python `json.loads` applied to an arbitrary runtime value:
only strings are accepted (`TypeError` otherwise, as in CPython). -/
def loads : Py → Except String Py
  | Py.str s => json_loads s
  | _ => Except.error "TypeError"

/-- Worker for `pySplit`: the second argument holds the characters of
the word in progress, reversed. -/
def pySplitAux : List Char → List Char → List String
  | [], [] => []
  | [], acc => [String.mk acc.reverse]
  | c :: cs, acc =>
    if c.isWhitespace then
      match acc with
      | [] => pySplitAux cs []
      | _ => String.mk acc.reverse :: pySplitAux cs []
    else pySplitAux cs (c :: acc)

/-- Python `str.split()`: split on whitespace runs, discarding empty
pieces. -/
def pySplit (s : String) : List String :=
  pySplitAux s.data []

/-- The sequence of values passed to `container.write` by the word loop
of `typewriter_stream` (src/app.py lines 130-133): `full_response`
accumulates `word + " "`, and each write is `full_response + " "`. -/
def wordWrites : List String → String → List Py
  | [], _ => []
  | w :: ws, acc =>
    let acc2 := acc ++ w ++ " "
    Py.str (acc2 ++ " ") :: wordWrites ws acc2

/-- The fallback parse chain of src/app.py line 126: the `except` arm
parses the first element of the (unchanged) content; an error from
either the subscript or this second parse propagates. -/
def second_parse (content : Py) : Except String Py :=
  match subscriptZero content with
  | Except.error e => Except.error e
  | Except.ok fst => loads fst

/-- Content resolution of `typewriter_stream` (src/app.py lines
122-126): for a `tool_output` event, try `json.loads(content)` and, on
any failure, `json.loads(content[0])`; other event types keep the
content as is. -/
def resolve_tool_content (ty : Py) (content : Py) : Except String Py :=
  if pyEqStr ty "tool_output" then
    match loads content with
    | Except.ok v => Except.ok v
    | Except.error _ => second_parse content
  else Except.ok content

/-- The writes `typewriter_stream` performs for a resolved content
value: the paced word-by-word writes when the content is a string
(non-strings skip the word loop), followed by the one unconditional
final write of the resolved content itself (src/app.py line 134). -/
def typewriterWrites (text_content : Py) : List Py :=
  (match text_content with
   | Py.str s => wordWrites (pySplit s) ""
   | _ => []) ++ [text_content]

/-- Model of `typewriter_stream(result, container)` (src/app.py lines
117-134): read `result["content"]`, branch on `result["type"]`, resolve
`tool_output` payloads through the parse chain, then produce the list
of values written to the container.  `Except.error` is an exception
escaping the renderer; no writes precede a raise, because the parse
chain runs before the word loop. -/
def typewriter_stream (result : Py) : Except String (List Py) :=
  match getItem result "content" with
  | Except.error e => Except.error e
  | Except.ok content =>
    match getItem result "type" with
    | Except.error e => Except.error e
    | Except.ok ty =>
      match resolve_tool_content ty content with
      | Except.error e => Except.error e
      | Except.ok text_content => Except.ok (typewriterWrites text_content)

/-- Convenience constructor for a well-formed Stream Event dict. -/
def mkEvent (ty content : String) : Py :=
  Py.dict [("type", Py.str ty), ("content", Py.str content)]

/-- The fixed text of `answer_generation`'s `except` arm (src/app.py
lines 90-93), with the formatted exception spliced in. -/
def errorMessage (e : String) : String :=
  "An error has occured with the retrieval from DocDB: " ++ e ++
    ". Try structuring your query another way."

/-- Model of `answer_generation` (src/app.py lines 75-93): the external
`stream_response` yields `pipelineEvents` and then, when `fault` is
set, raises; the `try` around the relay loop converts the raise into a
single final yield of the plain error string, after which the generator
returns.  The result is the full finite sequence of yielded values. -/
def answer_generation (pipelineEvents : List Py) (fault : Option String) : List Py :=
  pipelineEvents ++
    (match fault with
     | some e => [Py.str (errorMessage e)]
     | Option.none => [])

/-- A conversation message: `HumanMessage` or `AIMessage` with its
content. -/
inductive Msg where
  | human (content : Py)
  | ai (content : Py)

/-- The keys of `st.session_state` that `app.py` touches; an outer
`Option.none` means the key is absent from the session (Python
`"key" not in st.session_state`).  The compiled workflow `model` is
opaque and carries no data. -/
structure SessionState where
  thread_id : Option String
  query : Option Py
  run_id : Option Py
  messages : Option (List Msg)
  model : Option Unit
  generation : Option Py

/-- Model of `initialize_session_state` (src/app.py lines 101-114):
each key is assigned its initial value only when absent; `fresh` is the
`str(uuid.uuid4())` that would be minted for `thread_id`. -/
def initialize_session_state (fresh : String) (s : SessionState) : SessionState where
  thread_id := match s.thread_id with | Option.none => some fresh | some t => some t
  query := match s.query with | Option.none => some (Py.str "") | some q => some q
  run_id := match s.run_id with | Option.none => some Py.none | some r => some r
  messages := match s.messages with | Option.none => some [] | some ms => some ms
  model := match s.model with | Option.none => some () | some m => some m
  generation := match s.generation with | Option.none => some Py.none | some g => some g

/-- What the sequencer's body does with one stream item. -/
inductive Outcome where
  | captured (g : Py)
  | rendered (writes : List Py)

/-- The shared per-item body of both consumption loops (src/app.py
lines 360-367 and 390-398): check `result["type"]`; a `final_response`
is captured into the local `generation` variable, any other item is
typewriter-rendered into a fresh container.  An `Except.error` is an
exception raised by the body (for example `TypeError` from subscripting
a plain-string item, or a render fault). -/
def processResult (result : Py) : Except String Outcome :=
  match getItem result "type" with
  | Except.error e => Except.error e
  | Except.ok ty =>
    if pyEqStr ty "final_response" then Except.ok (Outcome.captured result)
    else
      match typewriter_stream result with
      | Except.error e => Except.error e
      | Except.ok ws => Except.ok (Outcome.rendered ws)

/-- The loop-local state of one turn's consumption: the captured
`generation` and the `message_stream` transcript list. -/
structure SeqState where
  generation : Option Py
  message_stream : List Py

/-- Observable steps of one turn, in order: a typewriter render of a
non-final item, an `st.error` report, the capture of a
`final_response`, the append of the assistant `AIMessage`, and the
final typewriter render after stream exhaustion. -/
inductive Action where
  | render (e : Py)
  | report (err : String)
  | capture (e : Py)
  | appendAssistant (c : Py)
  | renderFinal (e : Py)

/-- Developer-mode consumption (src/app.py lines 351-377): each item's
body runs under its own `try`, so a fault is reported per item and the
loop continues; every item is consumed. -/
def devLoop : List Py → SeqState → SeqState × List Action
  | [], s => (s, [])
  | r :: rest, s =>
    match processResult r with
    | Except.ok (Outcome.captured g) =>
      let t := devLoop rest { s with generation := some g }
      (t.1, Action.capture r :: t.2)
    | Except.ok (Outcome.rendered _) =>
      let t := devLoop rest { s with message_stream := s.message_stream ++ [r] }
      (t.1, Action.render r :: t.2)
    | Except.error e =>
      let t := devLoop rest s
      (t.1, Action.report e :: t.2)

/-- Guided-mode consumption (src/app.py lines 379-410): one `try`
around the whole loop, so the first fault is reported once and
consumption stops; the third component is the items never consumed. -/
def guidedLoop : List Py → SeqState → SeqState × List Action × List Py
  | [], s => (s, [], [])
  | r :: rest, s =>
    match processResult r with
    | Except.ok (Outcome.captured g) =>
      let t := guidedLoop rest { s with generation := some g }
      (t.1, Action.capture r :: t.2.1, t.2.2)
    | Except.ok (Outcome.rendered _) =>
      let t := guidedLoop rest { s with message_stream := s.message_stream ++ [r] }
      (t.1, Action.render r :: t.2.1, t.2.2)
    | Except.error e => (s, [Action.report e], rest)

/-- Consumption under the mode toggle: `devMode = true` is developer
mode (consumes everything), otherwise guided mode. -/
def runLoop (devMode : Bool) (items : List Py) (s : SeqState) :
    SeqState × List Action × List Py :=
  if devMode then
    let r := devLoop items s
    (r.1, r.2, [])
  else guidedLoop items s

/-- Model of the post-stream block of `main` (src/app.py lines
412-419), which runs unconditionally after the loop: store the last
traced run's id (`IndexError` when no run was traced), append
`AIMessage(generation["content"])` (`TypeError` when `generation` is
still `None`), store the new generation, then typewriter-render the
final response.  The returned state reflects every mutation made
before the crash point, and the middle component lists the observable
actions that happened. -/
def finalize (generation : Option Py) (tracedRuns : List String) (s : SessionState) :
    SessionState × List Action × Option String :=
  match tracedRuns.getLast? with
  | Option.none => (s, [], some "IndexError")
  | some rid =>
    let s1 := { s with run_id := some (Py.str rid) }
    match generation with
    | Option.none => (s1, [], some "TypeError")
    | some g =>
      match getItem g "content" with
      | Except.error e => (s1, [], some e)
      | Except.ok c =>
        let s2 := { s1 with
          messages := some (s1.messages.getD [] ++ [Msg.ai c]),
          generation := some c }
        match typewriter_stream g with
        | Except.error e => (s2, [Action.appendAssistant c], some e)
        | Except.ok _ => (s2, [Action.appendAssistant c, Action.renderFinal g], Option.none)

/-- One whole turn after the user message was appended: consume the
item sequence under the selected mode, then run the post-stream
block.  Returns the session state, the ordered action trace, and the
exception that escaped the turn, if any. -/
def runTurn (devMode : Bool) (items : List Py) (tracedRuns : List String)
    (s : SessionState) : SessionState × List Action × Option String :=
  let L := runLoop devMode items ⟨Option.none, []⟩
  let F := finalize L.1.generation tracedRuns s
  (F.1, L.2.1 ++ F.2.1, F.2.2)

/-- The body of `main`'s `if query:` branch (src/app.py lines 331-419):
append the `HumanMessage`, obtain the turn's item sequence from the
Turn Executor, and run the turn. -/
def executeTurn (devMode : Bool) (pipelineEvents : List Py) (fault : Option String)
    (tracedRuns : List String) (query : Py) (s : SessionState) :
    SessionState × List Action × Option String :=
  let s1 := { s with messages := some (s.messages.getD [] ++ [Msg.human query]) }
  runTurn devMode (answer_generation pipelineEvents fault) tracedRuns s1

/-- The guard of src/app.py line 331: `query is not None and query != ""`. -/
def queryGuard : Py → Bool
  | Py.none => false
  | Py.str s => !(s == "")
  | _ => true

/-- Model of one execution of `main` (src/app.py lines 137-460),
restricted to the turn-orchestration core: initialize session state,
absorb the chat-input text (`if user_query:` is Python truthiness, so
an empty string is ignored), run a turn when the pending query is
non-empty and non-null, and finally reset the pending query (line
460).  A second component of `some e` means exception `e` escaped
`main`, skipping the reset.  `pipelineEvents`, `fault` and
`tracedRuns` describe the external pipeline's behaviour for the turn;
a button click is a `query` already stored in `s0` by the `set_query`
callback. -/
def mainScript (devMode : Bool) (fresh : String) (userQuery : Option String)
    (pipelineEvents : List Py) (fault : Option String) (tracedRuns : List String)
    (s0 : SessionState) : SessionState × Option String :=
  let s1 := initialize_session_state fresh s0
  let s2 :=
    match userQuery with
    | some q => if q == "" then s1 else { s1 with query := some (Py.str q) }
    | Option.none => s1
  let q := s2.query.getD (Py.str "")
  if queryGuard q then
    let r := executeTurn devMode pipelineEvents fault tracedRuns q s2
    match r.2.2 with
    | some crash => (r.1, some crash)
    | Option.none => ({ r.1 with query := some (Py.str "") }, Option.none)
  else ({ s2 with query := some (Py.str "") }, Option.none)

/-- The score table of src/app.py line 431 (`score_mappings["faces"]`),
kept in insertion order; the numeric scores are the exact binary
fractions the Python floats denote. -/
def scores : List (String × ℚ) :=
  [("😀", 1), ("🙂", 3 / 4), ("😐", 1 / 2), ("🙁", 1 / 4), ("😞", 0)]

/-- `scores.get(symbol)` of src/app.py line 437. -/
def scoreOf (symbol : String) : Option ℚ :=
  scores.lookup symbol

/-- What the feedback section does once a feedback widget value
arrives: either a `client.create_feedback` call with its four
arguments, or the local `st.warning` rejection. -/
inductive FeedbackOutcome where
  | submitted (runId : String) (label : String) (score : ℚ) (comment : Option String)
  | warned

/-- Model of the Feedback Binder (src/app.py lines 436-458): look the
symbol up; `if score is not None` forward
`(run_id, "FACES: " + symbol, score, comment)` to the tracing
collaborator, otherwise warn and make no call. -/
def feedbackStep (runId : String) (symbol : String) (comment : Option String) :
    FeedbackOutcome :=
  match scoreOf symbol with
  | some sc => FeedbackOutcome.submitted runId ("FACES: " ++ symbol) sc comment
  | Option.none => FeedbackOutcome.warned

/-- The action the sequencer body produces for one item: capture,
render, or a per-item fault report. -/
def stepAction (r : Py) : Action :=
  match processResult r with
  | Except.ok (Outcome.captured _) => Action.capture r
  | Except.ok (Outcome.rendered _) => Action.render r
  | Except.error e => Action.report e

/-- The `final_response` capture an item produces, if any. -/
def capturedOf (r : Py) : Option Py :=
  match processResult r with
  | Except.ok (Outcome.captured g) => some g
  | _ => Option.none

/-- Whether an item is successfully typewriter-rendered by the loop
body (a non-final item whose render does not fault). -/
def isRendered (r : Py) : Bool :=
  match processResult r with
  | Except.ok (Outcome.rendered _) => true
  | _ => false

/-- The value of the loop-local `generation` variable after consuming
the items, starting from `g0`: the last capture wins. -/
def generationAfter (g0 : Option Py) : List Py → Option Py
  | [] => g0
  | r :: rest =>
    generationAfter (match capturedOf r with | some c => some c | Option.none => g0) rest

/-- The events rendered by a trace, in order. -/
def renderedEvents : List Action → List Py
  | [] => []
  | Action.render e :: rest => e :: renderedEvents rest
  | _ :: rest => renderedEvents rest

/-- The assistant-append steps of a trace. -/
def appendActions : List Action → List Action
  | [] => []
  | Action.appendAssistant c :: rest => Action.appendAssistant c :: appendActions rest
  | _ :: rest => appendActions rest

/-- A browser session before any key has been created. -/
def emptySession : SessionState :=
  ⟨Option.none, Option.none, Option.none, Option.none, Option.none, Option.none⟩

/-- A non-final item whose render succeeds. -/
def goodEv : Py := mkEvent "intermediate_text" "ok"

/-- A non-final item whose render faults: a `tool_output` whose content
fails both parses, so `typewriter_stream` raises. -/
def badEv : Py := mkEvent "tool_output" "oops"

/-- A `final_response` item. -/
def finalEv : Py := mkEvent "final_response" "answer"

/-- A session that already has a Thread Identity but no other key. -/
def sessA : SessionState :=
  ⟨some "t0", Option.none, Option.none, Option.none, Option.none, Option.none⟩

theorem devLoop_actions (items : List Py) (s : SeqState) :
    (devLoop items s).2 = items.map stepAction := by
  induction items generalizing s with
  | nil => rfl
  | cons r rest ih =>
    cases h : processResult r with
    | ok o =>
      cases o with
      | captured g => simp [devLoop, h, stepAction, ih]
      | rendered ws => simp [devLoop, h, stepAction, ih]
    | error e => simp [devLoop, h, stepAction, ih]

theorem devLoop_message_stream (items : List Py) (s : SeqState) :
    (devLoop items s).1.message_stream = s.message_stream ++ items.filter isRendered := by
  induction items generalizing s with
  | nil => simp [devLoop]
  | cons r rest ih =>
    cases h : processResult r with
    | ok o =>
      cases o with
      | captured g => simp [devLoop, h, isRendered, ih]
      | rendered ws => simp [devLoop, h, isRendered, ih]
    | error e => simp [devLoop, h, isRendered, ih]

theorem devLoop_generation (items : List Py) (s : SeqState) :
    (devLoop items s).1.generation = generationAfter s.generation items := by
  induction items generalizing s with
  | nil => rfl
  | cons r rest ih =>
    cases h : processResult r with
    | ok o =>
      cases o with
      | captured g => simp [devLoop, h, generationAfter, capturedOf, ih]
      | rendered ws => simp [devLoop, h, generationAfter, capturedOf, ih]
    | error e => simp [devLoop, h, generationAfter, capturedOf, ih]

theorem guidedLoop_of_ok : ∀ (items : List Py) (s : SeqState),
    (∀ r ∈ items, ∃ o, processResult r = Except.ok o) →
    guidedLoop items s = ((devLoop items s).1, (devLoop items s).2, [])
  | [], s, _ => by simp [guidedLoop, devLoop]
  | r :: rest, s, hok => by
    obtain ⟨o, ho⟩ := hok r (List.mem_cons_self r rest)
    have hrest := fun x hx => hok x (List.mem_cons_of_mem _ hx)
    cases o with
    | captured g =>
      have t := guidedLoop_of_ok rest { s with generation := some g } hrest
      simp [guidedLoop, devLoop, ho, t]
    | rendered ws =>
      have t := guidedLoop_of_ok rest { s with message_stream := s.message_stream ++ [r] } hrest
      simp [guidedLoop, devLoop, ho, t]

theorem appendActions_append (xs ys : List Action) :
    appendActions (xs ++ ys) = appendActions xs ++ appendActions ys := by
  induction xs with
  | nil => rfl
  | cons a rest ih => cases a <;> simp [appendActions, ih]

theorem appendActions_map_stepAction (items : List Py) :
    appendActions (items.map stepAction) = [] := by
  induction items with
  | nil => rfl
  | cons r rest ih =>
    cases h : processResult r with
    | ok o => cases o <;> simp [stepAction, h, appendActions, ih]
    | error e => simp [stepAction, h, appendActions, ih]

theorem renderedEvents_map_stepAction (items : List Py) :
    renderedEvents (items.map stepAction) = items.filter isRendered := by
  induction items with
  | nil => rfl
  | cons r rest ih =>
    cases h : processResult r with
    | ok o => cases o <;> simp [stepAction, h, isRendered, renderedEvents, ih]
    | error e => simp [stepAction, h, isRendered, renderedEvents, ih]

theorem captured_not_rendered (r : Py) :
    capturedOf r ≠ Option.none → isRendered r = false := by
  intro hc
  cases h : processResult r with
  | ok o =>
    cases o with
    | captured g => simp [isRendered, h]
    | rendered ws => exact absurd (by simp [capturedOf, h]) hc
  | error e => exact absurd (by simp [capturedOf, h]) hc

/-- C1, counterexample: when the pipeline faults before yielding
anything, the Turn Executor's whole output is one plain string — not a
Stream Event of type `error`: reading its `type` raises `TypeError`,
so the claimed "well-formed event of type error" is false on the
code. -/
theorem C1_counterexample :
    answer_generation [] (some "boom") = [Py.str (errorMessage "boom")] ∧
    getItem (Py.str (errorMessage "boom")) "type" = Except.error "TypeError" :=
  ⟨rfl, rfl⟩

/-- C1, amended: for every prefix of pipeline events and every fault,
`answer_generation` propagates no exception; it relays the events in
order and then yields exactly one terminal item, a plain string
summarizing the fault, after which the sequence terminates (and with
no fault it relays the events exactly). -/
theorem C1_amended (events : List Py) (f : String) :
    answer_generation events (some f) = events ++ [Py.str (errorMessage f)] ∧
    answer_generation events Option.none = events := by
  constructor <;> simp [answer_generation]

/-- C2: with a stream that yields no `final_response` (here: the
pipeline faults at once, so the only item is the Turn Executor's error
string), `main` is not a defined failure: it records the last traced
run id and then crashes with `TypeError` evaluating
`generation["content"]` on `None`; the pending query is never reset. -/
theorem C2_missing_final_crash :
    (mainScript false "tid" (some "q") [] (some "boom") ["r1"] emptySession).2 =
      some "TypeError" ∧
    (mainScript false "tid" (some "q") [] (some "boom") ["r1"] emptySession).1.run_id =
      some (Py.str "r1") ∧
    (mainScript false "tid" (some "q") [] (some "boom") ["r1"] emptySession).1.messages =
      some [Msg.human (Py.str "q")] ∧
    (mainScript false "tid" (some "q") [] (some "boom") ["r1"] emptySession).1.query =
      some (Py.str "q") :=
  ⟨rfl, rfl, rfl, rfl⟩

/-- C3, counterexample: a `tool_output` whose content fails both
parses ("hello" is not JSON, nor is its first character "h") makes
`typewriter_stream` raise `JSONDecodeError` — there is no third
fall-back to opaque text, so the parse-chain claim is false on the
code. -/
theorem C3_counterexample :
    typewriter_stream (mkEvent "tool_output" "hello") = Except.error "JSONDecodeError" :=
  rfl

/-- C3, amended: for a `tool_output` event the renderer first parses
`content`; if that fails it parses `content[0]`; but when the second
parse also fails, its exception propagates out of the renderer — the
code has no opaque-text fallback. -/
theorem C3_amended (content : Py) (e1 e2 : String)
    (h1 : loads content = Except.error e1)
    (h2 : second_parse content = Except.error e2) :
    typewriter_stream (Py.dict [("type", Py.str "tool_output"), ("content", content)]) =
      Except.error e2 := by
  show (match (match loads content with
               | Except.ok v => Except.ok v
               | Except.error _ => second_parse content) with
        | Except.error e => Except.error e
        | Except.ok tc => Except.ok (typewriterWrites tc)) = Except.error e2
  rw [h1, h2]

/-- C3, witness for the amended theorem at content "hello". -/
theorem C3_amended_witness :
    typewriter_stream (Py.dict [("type", Py.str "tool_output"), ("content", Py.str "hello")]) =
      Except.error "JSONDecodeError" :=
  C3_amended (Py.str "hello") "JSONDecodeError" "JSONDecodeError" rfl rfl

/-- C4, counterexample: the intermediate writes are not the buffer
states themselves — each write is `full_response + " "`, carrying one
extra trailing space, so the first write is `"GAMER  "`, not the
claimed `"GAMER "`. -/
theorem C4_counterexample :
    typewriter_stream (mkEvent "intermediate_text" "GAMER retrieves metadata") =
      Except.ok [Py.str "GAMER  ", Py.str "GAMER retrieves  ",
        Py.str "GAMER retrieves metadata  ", Py.str "GAMER retrieves metadata"] ∧
    Py.str "GAMER  " ≠ Py.str "GAMER " := by
  refine ⟨rfl, fun h => ?_⟩
  injection h with h2
  exact absurd h2 (by decide)

/-- C4, amended: typewriter rendering of "GAMER retrieves metadata"
takes the buffer through "GAMER ", "GAMER retrieves ", "GAMER
retrieves metadata " in order, and writes, before advancing past each
word, the buffer state plus one extra trailing space; it ends with one
final unconditional write exactly equal to the original text. -/
theorem C4_amended :
    typewriter_stream (mkEvent "intermediate_text" "GAMER retrieves metadata") =
      Except.ok [Py.str ("GAMER " ++ " "), Py.str ("GAMER retrieves " ++ " "),
        Py.str ("GAMER retrieves metadata " ++ " "),
        Py.str "GAMER retrieves metadata"] :=
  rfl

/-- C5: the five fixed symbols map to 1, 0.75, 0.5, 0.25, 0 (in
particular 😐 to 0.5 and 🙁 to 0.25); a recognized symbol is forwarded
to the tracing collaborator as `(runId, "FACES: " + symbol, score,
comment)`; an unrecognized symbol produces the warning and no call. -/
theorem C5_feedback (symbol runId : String) (comment : Option String) :
    scoreOf "😀" = some 1 ∧ scoreOf "🙂" = some (3 / 4) ∧
    scoreOf "😐" = some (1 / 2) ∧ scoreOf "🙁" = some (1 / 4) ∧
    scoreOf "😞" = some 0 ∧
    (∀ sc, scoreOf symbol = some sc →
      feedbackStep runId symbol comment =
        FeedbackOutcome.submitted runId ("FACES: " ++ symbol) sc comment) ∧
    (scoreOf symbol = Option.none →
      feedbackStep runId symbol comment = FeedbackOutcome.warned) := by
  refine ⟨rfl, rfl, rfl, rfl, rfl, ?_, ?_⟩
  · intro sc h
    simp [feedbackStep, h]
  · intro h
    simp [feedbackStep, h]

/-- C5, witness: the unrecognized symbol ❓ is rejected with no call,
and 😐 is forwarded with score 0.5. -/
theorem C5_feedback_witness :
    feedbackStep "run-1" "❓" Option.none = FeedbackOutcome.warned ∧
    feedbackStep "run-1" "😐" (some "note") =
      FeedbackOutcome.submitted "run-1" "FACES: 😐" (1 / 2) (some "note") :=
  ⟨(C5_feedback "❓" "run-1" Option.none).2.2.2.2.2.2 rfl,
   (C5_feedback "😐" "run-1" (some "note")).2.2.2.2.2.1 (1 / 2) rfl⟩

/-- C6: with five queued non-final items of which the 2nd render
faults, guided mode renders only item 1, reports one fault and never
consumes items 3-5, while developer mode reports the fault for item 2
in isolation and still renders items 3-5. -/
theorem C6_mode_isolation (e1 e2 e3 e4 e5 : Py) (w1 w3 w4 w5 : List Py) (err : String)
    (h1 : processResult e1 = Except.ok (Outcome.rendered w1))
    (h2 : processResult e2 = Except.error err)
    (h3 : processResult e3 = Except.ok (Outcome.rendered w3))
    (h4 : processResult e4 = Except.ok (Outcome.rendered w4))
    (h5 : processResult e5 = Except.ok (Outcome.rendered w5)) :
    (guidedLoop [e1, e2, e3, e4, e5] ⟨Option.none, []⟩).1.message_stream = [e1] ∧
    (guidedLoop [e1, e2, e3, e4, e5] ⟨Option.none, []⟩).2.1 =
      [Action.render e1, Action.report err] ∧
    (guidedLoop [e1, e2, e3, e4, e5] ⟨Option.none, []⟩).2.2 = [e3, e4, e5] ∧
    (devLoop [e1, e2, e3, e4, e5] ⟨Option.none, []⟩).1.message_stream =
      [e1, e3, e4, e5] ∧
    (devLoop [e1, e2, e3, e4, e5] ⟨Option.none, []⟩).2 =
      [Action.render e1, Action.report err, Action.render e3, Action.render e4,
        Action.render e5] := by
  refine ⟨?_, ?_, ?_, ?_, ?_⟩ <;> simp [guidedLoop, devLoop, h1, h2, h3, h4, h5]

/-- C6, witness at concrete events: `badEv` is a `tool_output` whose
render raises `JSONDecodeError`. -/
theorem C6_mode_isolation_witness :
    (guidedLoop [goodEv, badEv, goodEv, goodEv, goodEv] ⟨Option.none, []⟩).1.message_stream =
      [goodEv] ∧
    (guidedLoop [goodEv, badEv, goodEv, goodEv, goodEv] ⟨Option.none, []⟩).2.1 =
      [Action.render goodEv, Action.report "JSONDecodeError"] ∧
    (guidedLoop [goodEv, badEv, goodEv, goodEv, goodEv] ⟨Option.none, []⟩).2.2 =
      [goodEv, goodEv, goodEv] ∧
    (devLoop [goodEv, badEv, goodEv, goodEv, goodEv] ⟨Option.none, []⟩).1.message_stream =
      [goodEv, goodEv, goodEv, goodEv] ∧
    (devLoop [goodEv, badEv, goodEv, goodEv, goodEv] ⟨Option.none, []⟩).2 =
      [Action.render goodEv, Action.report "JSONDecodeError", Action.render goodEv,
        Action.render goodEv, Action.render goodEv] :=
  C6_mode_isolation goodEv badEv goodEv goodEv goodEv
    [Py.str "ok  ", Py.str "ok"] [Py.str "ok  ", Py.str "ok"]
    [Py.str "ok  ", Py.str "ok"] [Py.str "ok  ", Py.str "ok"]
    "JSONDecodeError" rfl rfl rfl rfl rfl

/-- C7, counterexample: the claim is false for a guided-mode turn
whose stream is `[final_response, faulting item, intermediate item]`:
the fault aborts consumption with `goodEv` never consumed (no render
action for it), yet the post-stream block still appends the assistant
message — so an assistant Message is appended without the stream being
exhausted and without all intermediate events having been rendered,
and no exception escapes that would void the turn. -/
theorem C7_counterexample :
    (runLoop false [finalEv, badEv, goodEv] ⟨Option.none, []⟩).2.2 = [goodEv] ∧
    (runTurn false [finalEv, badEv, goodEv] ["r1"]
        (initialize_session_state "t" emptySession)).2.1 =
      [Action.capture finalEv, Action.report "JSONDecodeError",
        Action.appendAssistant (Py.str "answer"), Action.renderFinal finalEv] ∧
    (runTurn false [finalEv, badEv, goodEv] ["r1"]
        (initialize_session_state "t" emptySession)).2.2 = Option.none ∧
    (runTurn false [finalEv, badEv, goodEv] ["r1"]
        (initialize_session_state "t" emptySession)).1.messages =
      some [Msg.ai (Py.str "answer")] :=
  ⟨rfl, rfl, rfl, rfl⟩

/-- C7, amended: on every turn whose consumption is fault-free (each
queued item processes without a render fault), in either mode, with
the last capture the `final_response` `g` of content `c`, the turn's
trace is exactly the per-item loop actions followed by the single
assistant append and the final render: every intermediate item is
rendered, in production order, before the append; `final_response`
items are captured and never typewriter-rendered inside the loop; the
whole stream is consumed; and exactly one assistant `AIMessage` is
appended, after exhaustion. -/
theorem C7_final_capture (devMode : Bool) (items : List Py) (tracedRuns : List String)
    (rid : String) (s : SessionState) (g c : Py) (ws : List Py)
    (hok : ∀ r ∈ items, ∃ o, processResult r = Except.ok o)
    (hg : generationAfter Option.none items = some g)
    (hc : getItem g "content" = Except.ok c)
    (hw : typewriter_stream g = Except.ok ws)
    (hr : tracedRuns.getLast? = some rid) :
    (runTurn devMode items tracedRuns s).2.1 =
      items.map stepAction ++ [Action.appendAssistant c, Action.renderFinal g] ∧
    appendActions ((runTurn devMode items tracedRuns s).2.1) =
      [Action.appendAssistant c] ∧
    renderedEvents (items.map stepAction) = items.filter isRendered ∧
    (∀ r ∈ items, capturedOf r ≠ Option.none → isRendered r = false) ∧
    (runLoop devMode items ⟨Option.none, []⟩).2.2 = [] ∧
    (runTurn devMode items tracedRuns s).2.2 = Option.none ∧
    (runTurn devMode items tracedRuns s).1.messages =
      some (s.messages.getD [] ++ [Msg.ai c]) := by
  have hloop : runLoop devMode items ⟨Option.none, []⟩ =
      ((devLoop items ⟨Option.none, []⟩).1, (devLoop items ⟨Option.none, []⟩).2, []) := by
    cases devMode with
    | false => simpa [runLoop] using guidedLoop_of_ok items ⟨Option.none, []⟩ hok
    | true => simp [runLoop]
  have hgen : (devLoop items ⟨Option.none, []⟩).1.generation = some g := by
    rw [devLoop_generation]; exact hg
  have hfin : finalize (some g) tracedRuns s =
      ({ s with run_id := some (Py.str rid),
                messages := some (s.messages.getD [] ++ [Msg.ai c]),
                generation := some c },
       [Action.appendAssistant c, Action.renderFinal g], Option.none) := by
    simp [finalize, hr, hc, hw]
  have h1 : (runTurn devMode items tracedRuns s).2.1 =
      items.map stepAction ++ [Action.appendAssistant c, Action.renderFinal g] := by
    simp [runTurn, hloop, hgen, hfin, devLoop_actions]
  have h6 : (runTurn devMode items tracedRuns s).2.2 = Option.none := by
    simp [runTurn, hloop, hgen, hfin]
  have h7 : (runTurn devMode items tracedRuns s).1.messages =
      some (s.messages.getD [] ++ [Msg.ai c]) := by
    simp [runTurn, hloop, hgen, hfin]
  refine ⟨h1, ?_, renderedEvents_map_stepAction items,
    fun r _ => captured_not_rendered r, by rw [hloop], h6, h7⟩
  rw [h1, appendActions_append, appendActions_map_stepAction]
  rfl

/-- C7, witness: a fault-free two-item turn (one intermediate item,
one `final_response`). -/
theorem C7_final_capture_witness :
    (runTurn true [goodEv, finalEv] ["r1"]
        (initialize_session_state "t" emptySession)).2.1 =
      [Action.render goodEv, Action.capture finalEv,
        Action.appendAssistant (Py.str "answer"), Action.renderFinal finalEv] ∧
    (runTurn true [goodEv, finalEv] ["r1"]
        (initialize_session_state "t" emptySession)).2.2 = Option.none ∧
    (runTurn true [goodEv, finalEv] ["r1"]
        (initialize_session_state "t" emptySession)).1.messages =
      some [Msg.ai (Py.str "answer")] := by
  have h := C7_final_capture true [goodEv, finalEv] ["r1"] "r1"
    (initialize_session_state "t" emptySession) finalEv (Py.str "answer")
    [Py.str "answer  ", Py.str "answer"]
    (by
      intro r hr
      rcases List.mem_cons.mp hr with h | h
      · exact ⟨Outcome.rendered [Py.str "ok  ", Py.str "ok"], by rw [h]; rfl⟩
      · rcases List.mem_cons.mp h with h2 | h2
        · exact ⟨Outcome.captured finalEv, by rw [h2]; rfl⟩
        · exact absurd h2 (List.not_mem_nil r))
    rfl rfl rfl rfl
  exact ⟨h.1, h.2.2.2.2.2.1, h.2.2.2.2.2.2⟩

/-- C8, counterexample: for content that is a JSON-encoded one-element
array containing an object, the FIRST parse already succeeds, so the
resolved payload is the enclosing one-element array, not the nested
object the claim names; the double-unwrap path is never taken. -/
theorem C8_counterexample :
    resolve_tool_content (Py.str "tool_output") (Py.str "[\x7b\"a\": 1\x7d]") =
      Except.ok (Py.list [Py.dict [("a", Py.int 1)]]) ∧
    Py.list [Py.dict [("a", Py.int 1)]] ≠ Py.dict [("a", Py.int 1)] := by
  refine ⟨rfl, fun h => ?_⟩
  exact Py.noConfusion h

/-- C8, amended: for such content the renderer resolves the whole
parsed one-element array (containing the object) as the structured
payload via the first parse, skips the word loop (the payload is not a
string) and renders it without raising, as the single final write. -/
theorem C8_amended :
    typewriter_stream (mkEvent "tool_output" "[\x7b\"a\": 1\x7d]") =
      Except.ok [Py.list [Py.dict [("a", Py.int 1)]]] :=
  rfl

/-- C9: `initialize_session_state` is idempotent, mints the thread
identifier only when absent, and leaves every already-present key
(thread_id, query, run_id, messages, model, generation) unchanged. -/
theorem C9_init_idempotent (s : SessionState) (f g : String) :
    initialize_session_state g (initialize_session_state f s) =
      initialize_session_state f s ∧
    (∀ t, s.thread_id = some t → (initialize_session_state f s).thread_id = some t) ∧
    (∀ q, s.query = some q → (initialize_session_state f s).query = some q) ∧
    (∀ r, s.run_id = some r → (initialize_session_state f s).run_id = some r) ∧
    (∀ ms, s.messages = some ms → (initialize_session_state f s).messages = some ms) ∧
    (∀ m, s.model = some m → (initialize_session_state f s).model = some m) ∧
    (∀ gn, s.generation = some gn → (initialize_session_state f s).generation = some gn) := by
  obtain ⟨t, q, r, ms, m, gn⟩ := s
  refine ⟨?_, ?_, ?_, ?_, ?_, ?_, ?_⟩
  · cases t <;> cases q <;> cases r <;> cases ms <;> cases m <;> cases gn <;> rfl
  · intro x hx; subst hx; rfl
  · intro x hx; subst hx; rfl
  · intro x hx; subst hx; rfl
  · intro x hx; subst hx; rfl
  · intro x hx; subst hx; rfl
  · intro x hx; subst hx; rfl

/-- C9, witness: a session that already has a Thread Identity keeps it
across another call, and a second initialization is the identity. -/
theorem C9_init_idempotent_witness :
    (initialize_session_state "new" sessA).thread_id = some "t0" ∧
    initialize_session_state "n2" (initialize_session_state "new" sessA) =
      initialize_session_state "new" sessA :=
  ⟨(C9_init_idempotent sessA "new" "n2").2.1 "t0" rfl,
   (C9_init_idempotent sessA "new" "n2").1⟩

/-- C10, counterexample: the claim is false on the code: an execution
of `main` that crashes in the post-stream block (the C2 scenario: a
turn with no `final_response`) ends with the pending query still "q" —
line 460 is never reached — and the following rerun with no new user
input and no button click passes the guard, re-executes the stale
query and appends a duplicate user `HumanMessage`. -/
theorem C10_counterexample :
    (mainScript false "tid" (some "q") [] (some "boom") ["r1"] emptySession).1.query =
      some (Py.str "q") ∧
    (mainScript false "tid" Option.none [] (some "boom") ["r1"]
        (mainScript false "tid" (some "q") [] (some "boom") ["r1"] emptySession).1).1.messages =
      some [Msg.human (Py.str "q"), Msg.human (Py.str "q")] :=
  ⟨rfl, rfl⟩

/-- C10, amended: every execution of `main` that completes without an
escaped exception leaves the pending query reset to the empty string;
and when the pending query is already empty and no new chat input
arrives, no turn runs at all — the script completes with the session
equal to its initialized state (query still empty, messages
untouched). -/
theorem C10_query_reset (devMode : Bool) (fresh : String) (uq : Option String)
    (evs : List Py) (fault : Option String) (runs : List String) (s : SessionState) :
    (∀ s2, mainScript devMode fresh uq evs fault runs s = (s2, Option.none) →
      s2.query = some (Py.str "")) ∧
    (s.query = some (Py.str "") → uq = Option.none →
      mainScript devMode fresh uq evs fault runs s =
        ({ initialize_session_state fresh s with query := some (Py.str "") },
          Option.none)) := by
  constructor
  · intro s2 h
    simp only [mainScript] at h
    split at h
    · split at h
      · exact absurd (congrArg Prod.snd h) (by simp)
      · have h1 := congrArg Prod.fst h
        simp only [] at h1
        rw [← h1]
    · have h1 := congrArg Prod.fst h
      simp only [] at h1
      rw [← h1]
  · intro h1 h2
    subst h2
    have hq : (initialize_session_state fresh s).query = some (Py.str "") := by
      simp [initialize_session_state, h1]
    simp [mainScript, hq, queryGuard]

/-- C10, witness: a rerun with an empty pending query and no new input
completes, re-executes nothing, and keeps the query empty. -/
theorem C10_query_reset_witness :
    mainScript true "t1" Option.none [] Option.none []
        (initialize_session_state "t0" emptySession) =
      ({ initialize_session_state "t1" (initialize_session_state "t0" emptySession) with
          query := some (Py.str "") }, Option.none) :=
  (C10_query_reset true "t1" Option.none [] Option.none []
      (initialize_session_state "t0" emptySession)).2 rfl rfl

end GAMER
